import Mathlib

/-!
# Desktop integration of `app/app_xdg.go`

A shallow embedding of the XDG desktop glue of the toolkit: opening a URL,
sending a notification, reading the colour scheme, caching the application icon
and listening for theme changes.

Every call that leaves the process (session bus, portal method calls, starting a
command, file system) is answered by an `Env`, a record of the answers the
outside world gives during one operation.  Every function returns, next to its
Go result, the list of effects it performed, in program order.  The two
package-level variables `once` and `notificationID` live in `Proc`.

Calls made one after another are runs (`portalRun`, `iconRun`).  Two calls of
`sendNotificationThroughPortal` that overlap in time are an `Overlap`, stepped
under a schedule.
-/

namespace XDG

/-! ## Data model -/

/-- A non-nil Go `error`, identified by its message.  The Go value `nil` of type
`error` is `none : Option Error`. -/
abbrev Error := String

/-- Values that travel over the bus in this file (`interface{}` / `dbus.Variant`). -/
inductive Value where
  | str (s : String)
  | u8 (n : Nat)
  | u32 (n : Nat)
  | i32 (n : Int)
  | strs (l : List String)
  | dict (m : List (String × Value))

/-- A shared session bus connection (`*dbus.Conn`). -/
structure Conn where
  id : Nat

/-- The type `*url.URL`; `String` is the result of the method `url.String()`. -/
structure URL where
  String : String

/-- The type `fyne.Resource`. -/
structure Resource where
  Name : String
  Content : List Nat

/-- The type `fyne.Notification`. -/
structure Notification where
  Title : String
  Content : String

/-- The receiver `*fyneApp`, as far as this file reads it: the field `uniqueID`
and the results of the methods `UniqueID()` and `Icon()` (`none` is a nil icon). -/
structure fyneApp where
  uniqueID : String
  UniqueID : String
  Icon : Option Resource

/-- The type `fyne.ThemeVariant` is an unsigned integer. -/
abbrev ThemeVariant := Nat

/-- The two constants of package `theme` used here.  Their declaration is outside
this file, so they are parameters. -/
structure Theme where
  VariantDark : ThemeVariant
  VariantLight : ThemeVariant

/-- A bus signal (`*dbus.Signal`), as far as the listener reads it. -/
structure Signal where
  Body : List Value

/-- The constant `dbus.FlagNoAutoStart`. -/
def FlagNoAutoStart : Nat := 2

/-- Effects performed by the functions of this file, in program order. -/
inductive Event where
  | logError (reason : String) (err : Error)
  | call (dest path method : String) (flags : Nat) (args : List Value)
  | start (name : String) (args : List String)
  | mkdirAll (path : String) (perm : Nat)
  | create (path : String)
  | write (path : String) (content : List Nat)
  | close (path : String)
  | addMatchSignal (path iface member : String)
  | connClose
  | themeChanged

/-- The answers of the outside world during one operation. -/
structure Env where
  /-- Result of `dbus.SessionBus()`. -/
  SessionBus : Except Error Conn
  /-- Result of `conn.Object(dest, path).Call(method, flags, args...)`: `call.Err` or the reply body. -/
  Call : (dest path method : String) → (flags : Nat) → (args : List Value) → Except Error (List Value)
  /-- Result of `call.Store(&value)` for `value` of type `uint8`, given the reply body. -/
  Store : List Value → Except Error Nat
  /-- Result of `cmd.Start()` for `execabs.Command(name, args...)`. -/
  Start : (name : String) → (args : List String) → Option Error
  /-- Result of `os.MkdirAll(path, perm)`. -/
  MkdirAll : (path : String) → (perm : Nat) → Option Error
  /-- Result of `os.Create(path)`. -/
  Create : (path : String) → Option Error
  /-- Result of `file.Write(content)` on the file created at `path`. -/
  Write : (path : String) → (content : List Nat) → Option Error
  /-- Result of `os.UserCacheDir()`, its error dropped. -/
  UserCacheDir : String
  /-- The function `filepath.Join`. -/
  Join : List String → String
  /-- Result of `conn.AddMatchSignal(...)`. -/
  AddMatchSignal : Option Error

/-- The package-level variables: `once` (true when `Do` has already run its function) and
`notificationID`, a `uint64`. -/
structure Proc where
  once : Bool
  notificationID : Nat

/-- The state at process start: `var once sync.Once`, `var notificationID uint64 = 0`. -/
def Proc.init : Proc := { once := false, notificationID := 0 }

/-! ## Theme variant -/

/-- Go: `findFreedestktopColorScheme`. -/
def findFreedestktopColorScheme (theme : Theme) (env : Env) : ThemeVariant × List Event :=
  match env.SessionBus with
  | .error err => (theme.VariantDark, [.logError "Unable to connect to session D-Bus" err])
  | .ok _ =>
    let ev := Event.call "org.freedesktop.portal.Desktop" "/org/freedesktop/portal/desktop"
      "org.freedesktop.portal.Settings.ReadOne" FlagNoAutoStart
      [.str "org.freedesktop.appearance", .str "color-scheme"]
    match env.Call "org.freedesktop.portal.Desktop" "/org/freedesktop/portal/desktop"
      "org.freedesktop.portal.Settings.ReadOne" FlagNoAutoStart
      [.str "org.freedesktop.appearance", .str "color-scheme"] with
    | .error _ => (theme.VariantDark, [ev])
    | .ok body =>
      match env.Store body with
      | .error err => (theme.VariantDark, [ev, .logError "failed to read theme variant from D-Bus" err])
      | .ok value =>
        match value with
        | 2 => (theme.VariantLight, [ev])
        | 1 => (theme.VariantDark, [ev])
        | _ => (theme.VariantLight, [ev])

/-- Go: `defaultVariant`. -/
def defaultVariant (theme : Theme) (env : Env) : ThemeVariant × List Event :=
  findFreedestktopColorScheme theme env

/-- The answer of the portal to the `ReadOne` call made by `findFreedestktopColorScheme`. -/
def readOneReply (env : Env) : Except Error (List Value) :=
  env.Call "org.freedesktop.portal.Desktop" "/org/freedesktop/portal/desktop"
    "org.freedesktop.portal.Settings.ReadOne" FlagNoAutoStart
    [.str "org.freedesktop.appearance", .str "color-scheme"]

/-- An environment for examples: every outside call answers as given. -/
def Env.mk0 (bus : Except Error Conn) (reply : Except Error (List Value))
    (stored : Except Error Nat) (started : Option Error) : Env :=
  { SessionBus := bus
    Call := fun _ _ _ _ _ => reply
    Store := fun _ => stored
    Start := fun _ _ => started
    MkdirAll := fun _ _ => none
    Create := fun _ => none
    Write := fun _ _ => none
    UserCacheDir := "/home/u/.cache"
    Join := fun l => "/".intercalate l
    AddMatchSignal := none }

/-! ## Opening a URL -/

/-- Go: `openURLThroughPortal`. -/
def openURLThroughPortal (env : Env) (url : URL) : Option Error × List Event :=
  match env.SessionBus with
  | .error err => (some err, [.logError "Unable to connect to session D-Bus" err])
  | .ok _ =>
    let parentWindow := ""
    let uri := url.String
    let options : List (String × Value) := []
    let ev := Event.call "org.freedesktop.portal.Desktop" "/org/freedesktop/portal/desktop"
      "org.freedesktop.portal.OpenURI.OpenURI" 0 [.str parentWindow, .str uri, .dict options]
    match env.Call "org.freedesktop.portal.Desktop" "/org/freedesktop/portal/desktop"
      "org.freedesktop.portal.OpenURI.OpenURI" 0 [.str parentWindow, .str uri, .dict options] with
    | .error err => (some err, [ev, .logError "Failed to open url with xdg-desktop-portal" err])
    | .ok _ => (none, [ev])

/-- Go: `(*fyneApp).OpenURL`. -/
def OpenURL (_a : fyneApp) (env : Env) (url : URL) : Option Error × List Event :=
  match openURLThroughPortal env url with
  | (none, evs) => (none, evs)
  | (some _, evs) =>
    (env.Start "xdg-open" [url.String], evs ++ [.start "xdg-open" [url.String]])

/-- The answer of the portal to the `OpenURI` call made for `url`. -/
def openURIReply (env : Env) (url : URL) : Except Error (List Value) :=
  env.Call "org.freedesktop.portal.Desktop" "/org/freedesktop/portal/desktop"
    "org.freedesktop.portal.OpenURI.OpenURI" 0 [.str "", .str url.String, .dict []]

/-- Number of commands started in a list of effects. -/
def starts (evs : List Event) : Nat :=
  evs.countP fun e => match e with
    | .start _ _ => true
    | _ => false

/-! ## Notifications -/

/-- The function `strconv.FormatUint` of the Go standard library, for bases up to
ten: the digits of `i`, most significant first, `"0"` for zero. -/
def FormatUint (i : Nat) (base : Nat) : String :=
  String.mk (Nat.toDigits base i)

/-- Value of a list of decimal digit characters read after the number `acc`. -/
def readDigits (acc : Nat) (cs : List Char) : Nat :=
  cs.foldl (fun a c => a * 10 + (c.toNat - 48)) acc

/-- Go: `(*fyneApp).sendNotificationThroughPortal`, with `notificationID++` on a `uint64`. -/
def sendNotificationThroughPortal (a : fyneApp) (env : Env) (_conn : Conn) (n : Notification)
    (p : Proc) : Option Error × List Event × Proc :=
  let id := FormatUint p.notificationID 10
  let data : List (String × Value) :=
    [("title", .str n.Title), ("body", .str n.Content), ("icon", .str a.uniqueID)]
  let ev := Event.call "org.freedesktop.portal.Desktop" "/org/freedesktop/portal/desktop"
    "org.freedesktop.portal.Notification.AddNotification" 0 [.str id, .dict data]
  match env.Call "org.freedesktop.portal.Desktop" "/org/freedesktop/portal/desktop"
    "org.freedesktop.portal.Notification.AddNotification" 0 [.str id, .dict data] with
  | .error err =>
    (some err, [ev, .logError "Failed to send notification to xdg-desktop-portal" err], p)
  | .ok _ =>
    (none, [ev], { p with notificationID := (p.notificationID + 1) % 2 ^ 64 })

/-- Go: `(*fyneApp).saveIconToCache`; the deferred `file.Close()` runs last. -/
def saveIconToCache (a : fyneApp) (env : Env) (dirPath filePath : String) :
    Option Error × List Event :=
  match env.MkdirAll dirPath 0o700 with
  | some err =>
    (some err, [.mkdirAll dirPath 0o700, .logError "Unable to create application cache directory" err])
  | none =>
    match env.Create filePath with
    | some err =>
      (some err, [.mkdirAll dirPath 0o700, .create filePath,
        .logError "Unable to create icon file" err])
    | none =>
      match a.Icon with
      | some icon =>
        match env.Write filePath icon.Content with
        | some err =>
          (some err, [.mkdirAll dirPath 0o700, .create filePath, .write filePath icon.Content,
            .logError "Unable to write icon contents" err, .close filePath])
        | none =>
          (none, [.mkdirAll dirPath 0o700, .create filePath, .write filePath icon.Content,
            .close filePath])
      | none => (none, [.mkdirAll dirPath 0o700, .create filePath, .close filePath])

/-- Go: `rootCacheDir`. -/
def rootCacheDir (env : Env) : String :=
  env.Join [env.UserCacheDir, "fyne"]

/-- Go: `(*fyneApp).cachedIconPath`.  `once.Do(f)` runs `f` when `once` is unused
and marks it used; on a used `once` it does nothing. -/
def cachedIconPath (a : fyneApp) (env : Env) (p : Proc) : String × List Event × Proc :=
  match a.Icon with
  | none => ("", [], p)
  | some _ =>
    let dirPath := env.Join [rootCacheDir env, a.UniqueID]
    let filePath := env.Join [dirPath, "icon.png"]
    if p.once then (filePath, [], p)
    else
      match saveIconToCache a env dirPath filePath with
      | (some _, evs) => ("", evs, { p with once := true })
      | (none, evs) => (filePath, evs, { p with once := true })

/-- Go: `(*fyneApp).SendNotification`. -/
def SendNotification (a : fyneApp) (env : Env) (n : Notification) (p : Proc) :
    List Event × Proc :=
  match env.SessionBus with
  | .error err => ([.logError "Unable to connect to session D-Bus" err], p)
  | .ok conn =>
    match sendNotificationThroughPortal a env conn n p with
    | (none, evs1, p1) => (evs1, p1)
    | (some _, evs1, p1) =>
      match cachedIconPath a env p1 with
      | (appIcon, evs2, p2) =>
        let timeout : Int := 0
        let ev := Event.call "org.freedesktop.Notifications" "/org/freedesktop/Notifications"
          "org.freedesktop.Notifications.Notify" 0
          [.str a.uniqueID, .u32 0, .str appIcon, .str n.Title, .str n.Content, .strs [],
            .dict [], .i32 timeout]
        match env.Call "org.freedesktop.Notifications" "/org/freedesktop/Notifications"
          "org.freedesktop.Notifications.Notify" 0
          [.str a.uniqueID, .u32 0, .str appIcon, .str n.Title, .str n.Content, .strs [],
            .dict [], .i32 timeout] with
        | .error err =>
          (evs1 ++ evs2 ++ [ev, .logError "Failed to send message to bus" err], p2)
        | .ok _ => (evs1 ++ evs2 ++ [ev], p2)

/-- The answer of the portal to the `AddNotification` call made for `n` in state `p`. -/
def addNotificationReply (a : fyneApp) (env : Env) (n : Notification) (p : Proc) :
    Except Error (List Value) :=
  env.Call "org.freedesktop.portal.Desktop" "/org/freedesktop/portal/desktop"
    "org.freedesktop.portal.Notification.AddNotification" 0
    [.str (FormatUint p.notificationID 10),
      .dict [("title", .str n.Title), ("body", .str n.Content), ("icon", .str a.uniqueID)]]

/-- Number of `org.freedesktop.Notifications.Notify` calls in a list of effects. -/
def notifyCalls (evs : List Event) : Nat :=
  evs.countP fun e => match e with
    | .call _ _ method _ _ => method == "org.freedesktop.Notifications.Notify"
    | _ => false

/-- Number of portal `AddNotification` calls in a list of effects. -/
def addNotificationCalls (evs : List Event) : Nat :=
  evs.countP fun e => match e with
    | .call _ _ method _ _ => method == "org.freedesktop.portal.Notification.AddNotification"
    | _ => false

/-- Number of file system effects (the icon cache) in a list of effects. -/
def cacheEffects (evs : List Event) : Nat :=
  evs.countP fun e => match e with
    | .mkdirAll _ _ => true
    | .create _ => true
    | .write _ _ => true
    | .close _ => true
    | _ => false

/-- Number of executions of `saveIconToCache` in a list of effects: each execution
starts with exactly one `os.MkdirAll`, and nothing else in this file calls it. -/
def saves (evs : List Event) : Nat :=
  evs.countP fun e => match e with
    | .mkdirAll _ _ => true
    | _ => false

/-- The ID strings passed to `AddNotification` in a list of effects. -/
def passedIDs (evs : List Event) : List String :=
  evs.filterMap fun e => match e with
    | .call _ _ method _ (.str id :: _) =>
      if method == "org.freedesktop.portal.Notification.AddNotification" then some id else none
    | _ => none

/-- A sequence of `sendNotificationThroughPortal` calls, each with the answers of
the outside world at that time; gives the result and effects of each call and
the final state. -/
def portalRun (a : fyneApp) (conn : Conn) :
    List (Env × Notification) → Proc → List (Option Error × List Event) × Proc
  | [], p => ([], p)
  | c :: cs, p =>
    match sendNotificationThroughPortal a c.1 conn c.2 p with
    | (err, evs, p1) =>
      match portalRun a conn cs p1 with
      | (rs, p2) => ((err, evs) :: rs, p2)

/-- Number of successful calls among the results of a run. -/
def successes (rs : List (Option Error × List Event)) : Nat :=
  rs.countP fun r => r.1.isNone

/-- A sequence of `cachedIconPath` calls; the application (and so its icon) and
the outside world may differ from call to call. -/
def iconRun : List (fyneApp × Env) → Proc → List (String × List Event) × Proc
  | [], p => ([], p)
  | c :: cs, p =>
    match cachedIconPath c.1 c.2 p with
    | (path, evs, p1) =>
      match iconRun cs p1 with
      | (rs, p2) => ((path, evs) :: rs, p2)

/-! ## Overlapping portal notifications

`sendNotificationThroughPortal` reads `notificationID` at the top, blocks in
`obj.Call` and only then increments the variable; no lock covers the three
steps.  The definitions below cut the function at the blocking call, so that
two goroutines running it can be interleaved. -/

/-- Where a goroutine stands inside `sendNotificationThroughPortal`: at its
entry, blocked in `obj.Call` holding the `id` it formatted, or returned. -/
inductive Goroutine where
  | entry
  | inCall (id : String)
  | returned (err : Option Error)

/-- Go: `(*fyneApp).sendNotificationThroughPortal`, one piece at a time.  From
`entry`: read `notificationID`, format `id`, build `data` and send the call.
From `inCall`: receive the reply, then either log and return `call.Err`, or run
`notificationID++` and return nil. -/
def Goroutine.step (a : fyneApp) (env : Env) (n : Notification) :
    Goroutine → Proc → Goroutine × List Event × Proc
  | .entry, p =>
    let id := FormatUint p.notificationID 10
    let data : List (String × Value) :=
      [("title", .str n.Title), ("body", .str n.Content), ("icon", .str a.uniqueID)]
    (.inCall id,
      [.call "org.freedesktop.portal.Desktop" "/org/freedesktop/portal/desktop"
        "org.freedesktop.portal.Notification.AddNotification" 0 [.str id, .dict data]],
      p)
  | .inCall id, p =>
    let data : List (String × Value) :=
      [("title", .str n.Title), ("body", .str n.Content), ("icon", .str a.uniqueID)]
    match env.Call "org.freedesktop.portal.Desktop" "/org/freedesktop/portal/desktop"
      "org.freedesktop.portal.Notification.AddNotification" 0 [.str id, .dict data] with
    | .error err =>
      (.returned (some err),
        [.logError "Failed to send notification to xdg-desktop-portal" err], p)
    | .ok _ =>
      (.returned none, [], { p with notificationID := (p.notificationID + 1) % 2 ^ 64 })
  | .returned err, p => (.returned err, [], p)

/-- Two goroutines inside `sendNotificationThroughPortal`, the effects each has
performed so far, and the package-level variables they share. -/
structure Overlap where
  g1 : Goroutine
  g2 : Goroutine
  evs1 : List Event
  evs2 : List Event
  proc : Proc

/-- Both goroutines at the entry of the function, at process start. -/
def Overlap.init : Overlap :=
  { g1 := .entry, g2 := .entry, evs1 := [], evs2 := [], proc := Proc.init }

/-- Runs the two goroutines under a schedule: `false` lets the first one take
its next piece, `true` the second. -/
def Overlap.run (a : fyneApp) (c1 c2 : Env × Notification) : List Bool → Overlap → Overlap
  | [], s => s
  | false :: rest, s =>
    match s.g1.step a c1.1 c1.2 s.proc with
    | (g, evs, p) => Overlap.run a c1 c2 rest { s with g1 := g, evs1 := s.evs1 ++ evs, proc := p }
  | true :: rest, s =>
    match s.g2.step a c2.1 c2.2 s.proc with
    | (g, evs, p) => Overlap.run a c1 c2 rest { s with g2 := g, evs2 := s.evs2 ++ evs, proc := p }

/-! ## Theme listener -/

/-- Go: `themeChanged`; the call into the settings is recorded as one effect. -/
def themeChanged : List Event := [.themeChanged]

/-- Go: `v == "color-scheme"` for `v` of type `interface{}`: true when `v` holds a
string equal to the right-hand side. -/
def Value.eqString : Value → String → Bool
  | .str s, t => s == t
  | _, _ => false

/-- Go: the inner loop `for _, v := range sig.Body` with its `break`. -/
def rangeBody : List Value → List Event
  | [] => []
  | v :: vs => if v.eqString "color-scheme" then themeChanged else rangeBody vs

/-- Go: the outer loop `for sig := range dbusChan`, over the signals delivered
until the channel is closed. -/
def rangeChan : List Signal → List Event
  | [] => []
  | sig :: sigs => rangeBody sig.Body ++ rangeChan sigs

/-- Go: `watchFreedekstopThemeChange`, given the signals delivered on the channel. -/
def watchFreedekstopThemeChange (env : Env) (signals : List Signal) : List Event :=
  match env.SessionBus with
  | .error err => [.logError "Unable to connect to session D-Bus" err]
  | .ok _ =>
    let m := Event.addMatchSignal "/org/freedesktop/portal/desktop"
      "org.freedesktop.portal.Settings" "SettingChanged"
    match env.AddMatchSignal with
    | some err => [m, .logError "D-Bus signal match failed" err]
    | none => m :: rangeChan signals ++ [.connClose]

/-- Number of `themeChanged` invocations in a list of effects. -/
def themeChanges (evs : List Event) : Nat :=
  evs.countP fun e => match e with
    | .themeChanged => true
    | _ => false

/-- A signal body has at least one element equal to the string `"color-scheme"`. -/
def hasColorScheme (sig : Signal) : Bool :=
  sig.Body.any fun v => v.eqString "color-scheme"

/-! ## Theorems -/

/-- C1: `findFreedestktopColorScheme`, and with it `defaultVariant`, returns the
dark variant exactly when a step failed (no session bus, the `ReadOne` call
errored, the reply could not be stored) or the value read is 1; every other
value read successfully gives the light variant. -/
theorem findFreedestktopColorScheme_dark_iff (theme : Theme)
    (hne : theme.VariantDark ≠ theme.VariantLight) (env : Env) :
    ((findFreedestktopColorScheme theme env).1 = theme.VariantDark ↔
      ((∃ e, env.SessionBus = .error e) ∨ (∃ e, readOneReply env = .error e) ∨
       (∃ body e, readOneReply env = .ok body ∧ env.Store body = .error e) ∨
       (∃ body, readOneReply env = .ok body ∧ env.Store body = .ok 1))) ∧
    (∀ conn body value, env.SessionBus = .ok conn → readOneReply env = .ok body →
      env.Store body = .ok value → value ≠ 1 →
      (findFreedestktopColorScheme theme env).1 = theme.VariantLight) ∧
    defaultVariant theme env = findFreedestktopColorScheme theme env := by
  have hne2 : theme.VariantLight ≠ theme.VariantDark := fun h => hne h.symm
  refine ⟨?_, ?_, rfl⟩
  · unfold findFreedestktopColorScheme readOneReply
    cases hb : env.SessionBus with
    | error e => simp
    | ok conn =>
      simp only [false_or, reduceCtorEq, exists_false]
      cases hc : env.Call "org.freedesktop.portal.Desktop" "/org/freedesktop/portal/desktop"
        "org.freedesktop.portal.Settings.ReadOne" FlagNoAutoStart
        [.str "org.freedesktop.appearance", .str "color-scheme"] with
      | error e => simp
      | ok body =>
        cases hs : env.Store body with
        | error e => simp [hs]
        | ok value =>
          match value with
          | 0 => simp [hs, hne2]
          | 1 => simp [hs]
          | 2 => simp [hs, hne2]
          | n + 3 => simp [hs, hne2]
  · intro conn body value hb hc hs hv
    unfold readOneReply at hc
    unfold findFreedestktopColorScheme
    simp only [hb, hc, hs]
    match value, hv with
    | 0, _ => rfl
    | 2, _ => rfl
    | n + 3, _ => rfl

/-- Witness for C1: bus and call succeed, the value read is 2, dark is 0 and light is 1. -/
theorem findFreedestktopColorScheme_dark_iff_witness :
    (findFreedestktopColorScheme ⟨0, 1⟩ (Env.mk0 (.ok ⟨0⟩) (.ok [.u8 2]) (.ok 2) none)).1 = 1 :=
  (findFreedestktopColorScheme_dark_iff ⟨0, 1⟩ (by decide)
    (Env.mk0 (.ok ⟨0⟩) (.ok [.u8 2]) (.ok 2) none)).2.1 ⟨0⟩ [.u8 2] 2 rfl rfl rfl (by decide)

/-- The portal path of `OpenURL` fails exactly when there is no session bus or
the `OpenURI` call returns an error. -/
theorem openURLThroughPortal_fails_iff (env : Env) (url : URL) :
    (openURLThroughPortal env url).1 ≠ none ↔
      ((∃ e, env.SessionBus = .error e) ∨ (∃ e, openURIReply env url = .error e)) := by
  unfold openURLThroughPortal openURIReply
  cases hb : env.SessionBus with
  | error e => simp
  | ok conn =>
    cases hc : env.Call "org.freedesktop.portal.Desktop" "/org/freedesktop/portal/desktop"
      "org.freedesktop.portal.OpenURI.OpenURI" 0 [.str "", .str url.String, .dict []] with
    | error e => simp [hc]
    | ok body => simp [hc]

/-- The portal path of `OpenURL` never starts a command. -/
theorem openURLThroughPortal_starts (env : Env) (url : URL) :
    starts (openURLThroughPortal env url).2 = 0 := by
  unfold openURLThroughPortal
  cases hb : env.SessionBus with
  | error e => simp [starts]
  | ok conn =>
    cases hc : env.Call "org.freedesktop.portal.Desktop" "/org/freedesktop/portal/desktop"
      "org.freedesktop.portal.OpenURI.OpenURI" 0 [.str "", .str url.String, .dict []] with
    | error e => simp [hc, starts]
    | ok body => simp [hc, starts]

/-- C2: if the portal `OpenURI` call succeeds, `OpenURL` returns nil and starts no
command; if the portal path fails (no session bus, or a call error), `xdg-open`
is started exactly once, with the string form of the URL, and `OpenURL` returns
the result of starting it; so `OpenURL` returns an error exactly when both the
portal path and starting `xdg-open` fail. -/
theorem OpenURL_fallback (a : fyneApp) (env : Env) (url : URL) :
    (∀ conn body, env.SessionBus = .ok conn → openURIReply env url = .ok body →
      (OpenURL a env url).1 = none ∧ starts (OpenURL a env url).2 = 0) ∧
    (((∃ e, env.SessionBus = .error e) ∨ (∃ e, openURIReply env url = .error e)) →
      (OpenURL a env url).1 = env.Start "xdg-open" [url.String] ∧
      (OpenURL a env url).2 =
        (openURLThroughPortal env url).2 ++ [.start "xdg-open" [url.String]] ∧
      starts (OpenURL a env url).2 = 1) ∧
    ((OpenURL a env url).1 ≠ none ↔
      (((∃ e, env.SessionBus = .error e) ∨ (∃ e, openURIReply env url = .error e)) ∧
        env.Start "xdg-open" [url.String] ≠ none)) := by
  have hs := openURLThroughPortal_starts env url
  have hf := openURLThroughPortal_fails_iff env url
  have key : ((openURLThroughPortal env url).1 = none →
        OpenURL a env url = (none, (openURLThroughPortal env url).2)) ∧
      ((openURLThroughPortal env url).1 ≠ none →
        OpenURL a env url = (env.Start "xdg-open" [url.String],
          (openURLThroughPortal env url).2 ++ [.start "xdg-open" [url.String]])) := by
    unfold OpenURL
    rcases hp : openURLThroughPortal env url with ⟨_ | e, evs⟩ <;> simp
  have hstart1 : starts ((openURLThroughPortal env url).2 ++
      [Event.start "xdg-open" [url.String]]) = 1 := by
    have : starts ((openURLThroughPortal env url).2 ++ [Event.start "xdg-open" [url.String]])
        = starts (openURLThroughPortal env url).2 + 1 := by
      simp [starts, List.countP_append]
    omega
  refine ⟨?_, ?_, ?_⟩
  · intro conn body hb hc
    have hok : (openURLThroughPortal env url).1 = none := by
      by_contra hcon
      rcases hf.mp hcon with ⟨e, he⟩ | ⟨e, he⟩
      · rw [hb] at he; cases he
      · rw [hc] at he; cases he
    rw [key.1 hok]
    exact ⟨rfl, hs⟩
  · intro h
    rw [key.2 (hf.mpr h)]
    exact ⟨rfl, rfl, hstart1⟩
  · by_cases hok : (openURLThroughPortal env url).1 = none
    · rw [key.1 hok]
      have : ¬ ((∃ e, env.SessionBus = .error e) ∨ (∃ e, openURIReply env url = .error e)) :=
        fun h => (hf.mpr h) hok
      simp [this]
    · rw [key.2 hok]
      simp [hf.mp hok]

/-- Witness for C2: no session bus, and `xdg-open` starts without error. -/
theorem OpenURL_fallback_witness :
    (OpenURL ⟨"app", "app", none⟩ (Env.mk0 (.error "no bus") (.error "unused") (.ok 0) none)
        ⟨"https://fyne.io"⟩).1 = none ∧
      starts (OpenURL ⟨"app", "app", none⟩
        (Env.mk0 (.error "no bus") (.error "unused") (.ok 0) none) ⟨"https://fyne.io"⟩).2 = 1 :=
  have h := (OpenURL_fallback ⟨"app", "app", none⟩
    (Env.mk0 (.error "no bus") (.error "unused") (.ok 0) none) ⟨"https://fyne.io"⟩).2.1
    (Or.inl ⟨"no bus", rfl⟩)
  ⟨h.1, h.2.2⟩

/-- Saving the icon makes no bus call. -/
theorem saveIconToCache_no_calls (a : fyneApp) (env : Env) (dirPath filePath : String) :
    notifyCalls (saveIconToCache a env dirPath filePath).2 = 0 ∧
    addNotificationCalls (saveIconToCache a env dirPath filePath).2 = 0 := by
  unfold saveIconToCache
  repeat' split
  all_goals simp [notifyCalls, addNotificationCalls]

/-- Looking up the cached icon makes no bus call. -/
theorem cachedIconPath_no_calls (a : fyneApp) (env : Env) (p : Proc) :
    notifyCalls (cachedIconPath a env p).2.1 = 0 ∧
    addNotificationCalls (cachedIconPath a env p).2.1 = 0 := by
  unfold cachedIconPath
  cases a.Icon with
  | none => simp [notifyCalls, addNotificationCalls]
  | some icon =>
    by_cases ho : p.once = true
    · simp [ho, notifyCalls, addNotificationCalls]
    · simp only [ho]
      rcases hsv : saveIconToCache a env (env.Join [rootCacheDir env, a.UniqueID])
        (env.Join [env.Join [rootCacheDir env, a.UniqueID], "icon.png"]) with ⟨_ | e, evs⟩ <;>
      · have h2 := saveIconToCache_no_calls a env (env.Join [rootCacheDir env, a.UniqueID])
          (env.Join [env.Join [rootCacheDir env, a.UniqueID], "icon.png"])
        rw [hsv] at h2
        simpa using h2

/-- The portal path of `SendNotification`: result, effects and counter, by the
answer of the portal. -/
theorem sendNotificationThroughPortal_eq (a : fyneApp) (env : Env) (conn : Conn)
    (n : Notification) (p : Proc) :
    (∀ body, addNotificationReply a env n p = .ok body →
      sendNotificationThroughPortal a env conn n p =
        (none,
          [.call "org.freedesktop.portal.Desktop" "/org/freedesktop/portal/desktop"
            "org.freedesktop.portal.Notification.AddNotification" 0
            [.str (FormatUint p.notificationID 10),
              .dict [("title", .str n.Title), ("body", .str n.Content),
                ("icon", .str a.uniqueID)]]],
          { p with notificationID := (p.notificationID + 1) % 2 ^ 64 })) ∧
    (∀ e, addNotificationReply a env n p = .error e →
      sendNotificationThroughPortal a env conn n p =
        (some e,
          [.call "org.freedesktop.portal.Desktop" "/org/freedesktop/portal/desktop"
            "org.freedesktop.portal.Notification.AddNotification" 0
            [.str (FormatUint p.notificationID 10),
              .dict [("title", .str n.Title), ("body", .str n.Content),
                ("icon", .str a.uniqueID)]],
           .logError "Failed to send notification to xdg-desktop-portal" e],
          p)) := by
  unfold addNotificationReply sendNotificationThroughPortal
  constructor
  · intro body h
    simp only [h]
  · intro e h
    simp only [h]

/-- C3: `SendNotification` makes the `org.freedesktop.Notifications.Notify` call
exactly when the session bus connection succeeded and the portal
`AddNotification` call returned an error; when the portal call succeeds neither
`Notify` nor the icon cache is touched, and without a session bus no
notification call of either kind is made. -/
theorem SendNotification_fallback (a : fyneApp) (env : Env) (n : Notification) (p : Proc) :
    (0 < notifyCalls (SendNotification a env n p).1 ↔
      ((∃ conn, env.SessionBus = .ok conn) ∧
        (∃ e, addNotificationReply a env n p = .error e))) ∧
    notifyCalls (SendNotification a env n p).1 ≤ 1 ∧
    (∀ conn body, env.SessionBus = .ok conn → addNotificationReply a env n p = .ok body →
      notifyCalls (SendNotification a env n p).1 = 0 ∧
      cacheEffects (SendNotification a env n p).1 = 0 ∧
      (SendNotification a env n p).2.once = p.once) ∧
    (∀ e, env.SessionBus = .error e →
      notifyCalls (SendNotification a env n p).1 = 0 ∧
      addNotificationCalls (SendNotification a env n p).1 = 0) := by
  have hportal := sendNotificationThroughPortal_eq a env
  have hcache := cachedIconPath_no_calls a env p
  unfold SendNotification
  cases hb : env.SessionBus with
  | error e0 => simp [notifyCalls, addNotificationCalls]
  | ok conn =>
    dsimp only
    cases hr : addNotificationReply a env n p with
    | ok body =>
      rw [(hportal conn n p).1 body hr]
      simp [notifyCalls, cacheEffects]
    | error e =>
      rw [(hportal conn n p).2 e hr]
      dsimp only
      rcases hcp : cachedIconPath a env p with ⟨appIcon, evs2, p2⟩
      rw [hcp] at hcache
      simp only at hcache
      cases env.Call "org.freedesktop.Notifications" "/org/freedesktop/Notifications"
          "org.freedesktop.Notifications.Notify" 0
          [.str a.uniqueID, .u32 0, .str appIcon, .str n.Title, .str n.Content, .strs [],
            .dict [], .i32 0] with
      | error e2 =>
        have hc : notifyCalls evs2 = 0 := hcache.1
        unfold notifyCalls at hc ⊢
        simp [List.countP_append, hc]
      | ok body2 =>
        have hc : notifyCalls evs2 = 0 := hcache.1
        unfold notifyCalls at hc ⊢
        simp [List.countP_append, hc]

/-- Witness for C3: the bus is there and the portal refuses the notification. -/
theorem SendNotification_fallback_witness :
    0 < notifyCalls (SendNotification ⟨"app", "app", none⟩
      (Env.mk0 (.ok ⟨0⟩) (.error "no portal") (.ok 0) none) ⟨"t", "c"⟩ Proc.init).1 :=
  (SendNotification_fallback ⟨"app", "app", none⟩
    (Env.mk0 (.ok ⟨0⟩) (.error "no portal") (.ok 0) none) ⟨"t", "c"⟩ Proc.init).1.mpr
    ⟨⟨⟨0⟩, rfl⟩, ⟨"no portal", rfl⟩⟩

/-! ### Decimal rendering -/

/-- A decimal digit character has the value of its digit. -/
theorem digitChar_value : ∀ d, d < 10 → (Nat.digitChar d).toNat - 48 = d := by
  decide

/-- Reading back the digits produced for `n` in front of `ds` continues from `n`. -/
theorem readDigits_toDigitsCore (fuel : Nat) :
    ∀ n ds, n < fuel → readDigits 0 (Nat.toDigitsCore 10 fuel n ds) = readDigits n ds := by
  induction fuel with
  | zero => intro n ds h; omega
  | succ fuel ih =>
    intro n ds h
    have hd := digitChar_value (n % 10) (Nat.mod_lt _ (by decide))
    unfold Nat.toDigitsCore
    by_cases h0 : n / 10 = 0
    · simp only [h0, if_true]
      have hn : n % 10 = n := Nat.mod_eq_of_lt (by omega)
      simp only [readDigits, List.foldl_cons, hd]
      rw [hn]; simp
    · simp only [h0, if_false]
      rw [ih (n / 10) _ (by omega)]
      simp only [readDigits, List.foldl_cons, hd]
      have : n / 10 * 10 + n % 10 = n := by omega
      rw [this]

/-- Different numbers have different base-10 renderings. -/
theorem FormatUint_injective (i j : Nat) (h : FormatUint i 10 = FormatUint j 10) : i = j := by
  unfold FormatUint at h
  have h2 : Nat.toDigits 10 i = Nat.toDigits 10 j := by injection h
  have hi := readDigits_toDigitsCore (i + 1) i [] (by omega)
  have hj := readDigits_toDigitsCore (j + 1) j [] (by omega)
  unfold Nat.toDigits at h2
  rw [h2, hj] at hi
  simpa [readDigits] using hi.symm

/-! ### Runs of portal notifications -/

/-- One call: the counter after it, and the ID it passes. -/
theorem sendNotificationThroughPortal_step (a : fyneApp) (env : Env) (conn : Conn)
    (n : Notification) (p : Proc) :
    ((sendNotificationThroughPortal a env conn n p).1 = none →
      (sendNotificationThroughPortal a env conn n p).2.2.notificationID =
        (p.notificationID + 1) % 2 ^ 64) ∧
    ((sendNotificationThroughPortal a env conn n p).1 ≠ none →
      (sendNotificationThroughPortal a env conn n p).2.2.notificationID = p.notificationID) ∧
    passedIDs (sendNotificationThroughPortal a env conn n p).2.1 =
      [FormatUint p.notificationID 10] := by
  have h := sendNotificationThroughPortal_eq a env conn n p
  cases hr : addNotificationReply a env n p with
  | ok body => rw [h.1 body hr]; simp [passedIDs]
  | error e => rw [h.2 e hr]; simp [passedIDs]

/-- Unfolding a run at its first call. -/
theorem portalRun_cons (a : fyneApp) (conn : Conn) (c : Env × Notification)
    (cs : List (Env × Notification)) (p : Proc) :
    portalRun a conn (c :: cs) p =
      (((sendNotificationThroughPortal a c.1 conn c.2 p).1,
          (sendNotificationThroughPortal a c.1 conn c.2 p).2.1) ::
        (portalRun a conn cs (sendNotificationThroughPortal a c.1 conn c.2 p).2.2).1,
        (portalRun a conn cs (sendNotificationThroughPortal a c.1 conn c.2 p).2.2).2) := rfl

/-- A run over `xs ++ ys` is the run over `xs` followed by the run over `ys`. -/
theorem portalRun_append (a : fyneApp) (conn : Conn) (xs ys : List (Env × Notification)) :
    ∀ p, portalRun a conn (xs ++ ys) p =
      ((portalRun a conn xs p).1 ++ (portalRun a conn ys (portalRun a conn xs p).2).1,
        (portalRun a conn ys (portalRun a conn xs p).2).2) := by
  induction xs with
  | nil => intro p; rfl
  | cons c cs ih =>
    intro p
    rw [List.cons_append, portalRun_cons, portalRun_cons, ih]
    rfl

/-- The counter after a run is the counter before it plus the number of
successes, modulo `2 ^ 64`. -/
theorem portalRun_notificationID (a : fyneApp) (conn : Conn) (cs : List (Env × Notification)) :
    ∀ p, (portalRun a conn cs p).2.notificationID % 2 ^ 64 =
      (p.notificationID + successes (portalRun a conn cs p).1) % 2 ^ 64 := by
  induction cs with
  | nil => intro p; simp [portalRun, successes]
  | cons c cs ih =>
    intro p
    rw [portalRun_cons]
    have hs := sendNotificationThroughPortal_step a c.1 conn c.2 p
    simp only [ih, successes, List.countP_cons]
    by_cases hok : (sendNotificationThroughPortal a c.1 conn c.2 p).1 = none
    · rw [hs.1 hok, hok]
      simp only [Option.isNone_none, if_true]
      omega
    · rw [hs.2.1 hok]
      have : (sendNotificationThroughPortal a c.1 conn c.2 p).1.isNone = false := by
        cases hx : (sendNotificationThroughPortal a c.1 conn c.2 p).1 with
        | none => exact absurd hx hok
        | some e => rfl
      simp [this]

/-- The counter stays below `2 ^ 64` along a run. -/
theorem portalRun_bound (a : fyneApp) (conn : Conn) (cs : List (Env × Notification)) :
    ∀ p, p.notificationID < 2 ^ 64 → (portalRun a conn cs p).2.notificationID < 2 ^ 64 := by
  induction cs with
  | nil => intro p h; exact h
  | cons c cs ih =>
    intro p h
    rw [portalRun_cons]
    apply ih
    have hs := sendNotificationThroughPortal_step a c.1 conn c.2 p
    by_cases hok : (sendNotificationThroughPortal a c.1 conn c.2 p).1 = none
    · rw [hs.1 hok]; exact Nat.mod_lt _ (by positivity)
    · rw [hs.2.1 hok]; exact h

/-- When the portal accepts every call, a run of `k` calls has `k` successes. -/
theorem portalRun_replicate_ok (a : fyneApp) (conn : Conn) (env : Env) (n : Notification)
    (hok : ∀ d q m f args, ∃ body, env.Call d q m f args = .ok body) :
    ∀ k p, successes (portalRun a conn (List.replicate k (env, n)) p).1 = k := by
  intro k
  induction k with
  | zero => intro p; rfl
  | succ k ih =>
    intro p
    rw [List.replicate_succ, portalRun_cons]
    obtain ⟨body, hbody⟩ := hok "org.freedesktop.portal.Desktop" "/org/freedesktop/portal/desktop"
      "org.freedesktop.portal.Notification.AddNotification" 0
      [.str (FormatUint p.notificationID 10),
        .dict [("title", .str n.Title), ("body", .str n.Content), ("icon", .str a.uniqueID)]]
    have h := (sendNotificationThroughPortal_eq a env conn n p).1 body hbody
    simp only [successes, List.countP_cons] at ih ⊢
    rw [ih, h]
    rfl

/-- When the portal accepts every call, the counter after `k` calls from the
initial state is `k` modulo `2 ^ 64`. -/
theorem portalRun_replicate_notificationID (a : fyneApp) (conn : Conn) (env : Env)
    (n : Notification) (hok : ∀ d q m f args, ∃ body, env.Call d q m f args = .ok body)
    (k : Nat) :
    (portalRun a conn (List.replicate k (env, n)) Proc.init).2.notificationID = k % 2 ^ 64 := by
  have h1 := portalRun_notificationID a conn (List.replicate k (env, n)) Proc.init
  have h2 := portalRun_bound a conn (List.replicate k (env, n)) Proc.init
    (by show (0 : Nat) < 2 ^ 64; positivity)
  rw [portalRun_replicate_ok a conn env n hok k Proc.init] at h1
  rw [Nat.mod_eq_of_lt h2] at h1
  rw [h1]
  show (0 + k) % 2 ^ 64 = k % 2 ^ 64
  rw [Nat.zero_add]

/-- C4, as stated, fails: after `2 ^ 64 - 1` successful calls from the initial
state the counter is `2 ^ 64 - 1`, and the next successful call takes it to 0. -/
theorem notificationID_wraps :
    (portalRun ⟨"app", "app", none⟩ ⟨0⟩
      (List.replicate (2 ^ 64 - 1) (Env.mk0 (.ok ⟨0⟩) (.ok []) (.ok 0) none, ⟨"t", "c"⟩))
      Proc.init).2.notificationID = 2 ^ 64 - 1 ∧
    (sendNotificationThroughPortal ⟨"app", "app", none⟩
      (Env.mk0 (.ok ⟨0⟩) (.ok []) (.ok 0) none) ⟨0⟩ ⟨"t", "c"⟩
      (portalRun ⟨"app", "app", none⟩ ⟨0⟩
        (List.replicate (2 ^ 64 - 1) (Env.mk0 (.ok ⟨0⟩) (.ok []) (.ok 0) none, ⟨"t", "c"⟩))
        Proc.init).2).1 = none ∧
    (sendNotificationThroughPortal ⟨"app", "app", none⟩
      (Env.mk0 (.ok ⟨0⟩) (.ok []) (.ok 0) none) ⟨0⟩ ⟨"t", "c"⟩
      (portalRun ⟨"app", "app", none⟩ ⟨0⟩
        (List.replicate (2 ^ 64 - 1) (Env.mk0 (.ok ⟨0⟩) (.ok []) (.ok 0) none, ⟨"t", "c"⟩))
        Proc.init).2).2.2.notificationID = 0 := by
  have hk := portalRun_replicate_notificationID ⟨"app", "app", none⟩ ⟨0⟩
    (Env.mk0 (.ok ⟨0⟩) (.ok []) (.ok 0) none) ⟨"t", "c"⟩ (fun _ _ _ _ _ => ⟨[], rfl⟩)
    (2 ^ 64 - 1)
  rw [Nat.mod_eq_of_lt (by norm_num)] at hk
  generalize (portalRun ⟨"app", "app", none⟩ ⟨0⟩
    (List.replicate (2 ^ 64 - 1) (Env.mk0 (.ok ⟨0⟩) (.ok []) (.ok 0) none, ⟨"t", "c"⟩))
    Proc.init).2 = p at hk ⊢
  have hstep := sendNotificationThroughPortal_step ⟨"app", "app", none⟩
    (Env.mk0 (.ok ⟨0⟩) (.ok []) (.ok 0) none) ⟨0⟩ ⟨"t", "c"⟩ p
  have hnone : (sendNotificationThroughPortal ⟨"app", "app", none⟩
      (Env.mk0 (.ok ⟨0⟩) (.ok []) (.ok 0) none) ⟨0⟩ ⟨"t", "c"⟩ p).1 = none := rfl
  refine ⟨hk, hnone, ?_⟩
  rw [hstep.1 hnone, hk]
  norm_num

/-- C4, amended: along every sequence of `sendNotificationThroughPortal` calls
from the initial state with fewer than `2 ^ 64` successes, no call decreases
`notificationID`; a call that succeeds raises it by exactly one and a call that
fails leaves it unchanged. -/
theorem notificationID_monotonic (a : fyneApp) (conn : Conn)
    (pre : List (Env × Notification)) (c : Env × Notification)
    (post : List (Env × Notification))
    (h : successes (portalRun a conn (pre ++ c :: post) Proc.init).1 < 2 ^ 64) :
    (portalRun a conn pre Proc.init).2.notificationID ≤
      (sendNotificationThroughPortal a c.1 conn c.2
        (portalRun a conn pre Proc.init).2).2.2.notificationID ∧
    ((sendNotificationThroughPortal a c.1 conn c.2 (portalRun a conn pre Proc.init).2).1 = none →
      (sendNotificationThroughPortal a c.1 conn c.2
        (portalRun a conn pre Proc.init).2).2.2.notificationID =
        (portalRun a conn pre Proc.init).2.notificationID + 1) ∧
    ((sendNotificationThroughPortal a c.1 conn c.2 (portalRun a conn pre Proc.init).2).1 ≠ none →
      (sendNotificationThroughPortal a c.1 conn c.2
        (portalRun a conn pre Proc.init).2).2.2.notificationID =
        (portalRun a conn pre Proc.init).2.notificationID) := by
  have h1 := portalRun_notificationID a conn pre Proc.init
  have h2 := portalRun_bound a conn pre Proc.init (by show (0 : Nat) < 2 ^ 64; positivity)
  rw [Nat.mod_eq_of_lt h2] at h1
  have h0 : Proc.init.notificationID = 0 := rfl
  rw [h0, Nat.zero_add] at h1
  rw [portalRun_append, portalRun_cons] at h
  simp only [successes, List.countP_append, List.countP_cons] at h h1
  have hs := sendNotificationThroughPortal_step a c.1 conn c.2 (portalRun a conn pre Proc.init).2
  generalize (portalRun a conn pre Proc.init).2 = p at *
  generalize (portalRun a conn pre Proc.init).1 = rs at *
  by_cases hok : (sendNotificationThroughPortal a c.1 conn c.2 p).1 = none
  · rw [hok] at h
    simp only [Option.isNone_none, if_true] at h
    have hlt : p.notificationID + 1 < 2 ^ 64 := by
      have := Nat.mod_le (List.countP (fun r => r.1.isNone) rs) (2 ^ 64)
      omega
    have hid := hs.1 hok
    rw [Nat.mod_eq_of_lt hlt] at hid
    exact ⟨by omega, fun _ => hid, fun hne => absurd hok hne⟩
  · have hid := hs.2.1 hok
    exact ⟨by omega, fun hn => absurd hn hok, fun _ => hid⟩

/-- Witness for C4: a failed call followed by a successful one. -/
theorem notificationID_monotonic_witness :
    (portalRun ⟨"app", "app", none⟩ ⟨0⟩
      [(Env.mk0 (.ok ⟨0⟩) (.error "busy") (.ok 0) none, ⟨"t", "c"⟩)]
      Proc.init).2.notificationID ≤
    (sendNotificationThroughPortal ⟨"app", "app", none⟩
      (Env.mk0 (.ok ⟨0⟩) (.ok []) (.ok 0) none) ⟨0⟩ ⟨"t", "c"⟩
      (portalRun ⟨"app", "app", none⟩ ⟨0⟩
        [(Env.mk0 (.ok ⟨0⟩) (.error "busy") (.ok 0) none, ⟨"t", "c"⟩)]
        Proc.init).2).2.2.notificationID :=
  (notificationID_monotonic ⟨"app", "app", none⟩ ⟨0⟩
    [(Env.mk0 (.ok ⟨0⟩) (.error "busy") (.ok 0) none, ⟨"t", "c"⟩)]
    (Env.mk0 (.ok ⟨0⟩) (.ok []) (.ok 0) none, ⟨"t", "c"⟩) []
    (by decide)).1

/-- Calls made one after another: in a run from the initial state with fewer
than `2 ^ 64` successes, take any two calls, `c1` before `c2`.  Each passes to
`AddNotification` exactly one ID, the base-10 rendering of `notificationID` at
the time of the call.  If both succeed the IDs differ.  If the IDs are equal,
every call from `c1` up to the one just before `c2` failed; in particular `c2`
follows a failed call. -/
theorem portalRun_ids_distinct (a : fyneApp) (conn : Conn)
    (pre : List (Env × Notification)) (c1 : Env × Notification)
    (mid : List (Env × Notification)) (c2 : Env × Notification)
    (post : List (Env × Notification))
    (h : successes (portalRun a conn (pre ++ c1 :: (mid ++ c2 :: post)) Proc.init).1 < 2 ^ 64) :
    passedIDs (sendNotificationThroughPortal a c1.1 conn c1.2
        (portalRun a conn pre Proc.init).2).2.1 =
      [FormatUint (portalRun a conn pre Proc.init).2.notificationID 10] ∧
    passedIDs (sendNotificationThroughPortal a c2.1 conn c2.2
        (portalRun a conn (pre ++ c1 :: mid) Proc.init).2).2.1 =
      [FormatUint (portalRun a conn (pre ++ c1 :: mid) Proc.init).2.notificationID 10] ∧
    ((sendNotificationThroughPortal a c1.1 conn c1.2 (portalRun a conn pre Proc.init).2).1 = none →
      (sendNotificationThroughPortal a c2.1 conn c2.2
        (portalRun a conn (pre ++ c1 :: mid) Proc.init).2).1 = none →
      passedIDs (sendNotificationThroughPortal a c1.1 conn c1.2
          (portalRun a conn pre Proc.init).2).2.1 ≠
        passedIDs (sendNotificationThroughPortal a c2.1 conn c2.2
          (portalRun a conn (pre ++ c1 :: mid) Proc.init).2).2.1) ∧
    (passedIDs (sendNotificationThroughPortal a c1.1 conn c1.2
          (portalRun a conn pre Proc.init).2).2.1 =
        passedIDs (sendNotificationThroughPortal a c2.1 conn c2.2
          (portalRun a conn (pre ++ c1 :: mid) Proc.init).2).2.1 →
      (∀ r ∈ (portalRun a conn (c1 :: mid) (portalRun a conn pre Proc.init).2).1, r.1 ≠ none) ∧
      (∃ r, (portalRun a conn (pre ++ c1 :: mid) Proc.init).1.getLast? = some r ∧
        r.1 ≠ none)) := by
  -- the counter before `c1` and before `c2`
  have hb1 := portalRun_bound a conn pre Proc.init (by show (0 : Nat) < 2 ^ 64; positivity)
  have hb2 := portalRun_bound a conn (c1 :: mid) (portalRun a conn pre Proc.init).2 hb1
  have hn2 := portalRun_notificationID a conn (c1 :: mid) (portalRun a conn pre Proc.init).2
  have hn1 := portalRun_notificationID a conn pre Proc.init
  rw [Nat.mod_eq_of_lt hb1] at hn1
  rw [Nat.mod_eq_of_lt hb2] at hn2
  have h0 : Proc.init.notificationID = 0 := rfl
  rw [h0, Nat.zero_add] at hn1
  have hsplit : pre ++ c1 :: (mid ++ c2 :: post) = pre ++ ((c1 :: mid) ++ c2 :: post) := by simp
  rw [hsplit, portalRun_append, portalRun_append] at h
  have happ : portalRun a conn (pre ++ c1 :: mid) Proc.init =
      ((portalRun a conn pre Proc.init).1 ++
          (portalRun a conn (c1 :: mid) (portalRun a conn pre Proc.init).2).1,
        (portalRun a conn (c1 :: mid) (portalRun a conn pre Proc.init).2).2) :=
    portalRun_append a conn pre (c1 :: mid) Proc.init
  rw [happ]
  have hhead : (portalRun a conn (c1 :: mid) (portalRun a conn pre Proc.init).2).1 =
      ((sendNotificationThroughPortal a c1.1 conn c1.2 (portalRun a conn pre Proc.init).2).1,
        (sendNotificationThroughPortal a c1.1 conn c1.2 (portalRun a conn pre Proc.init).2).2.1) ::
      (portalRun a conn mid (sendNotificationThroughPortal a c1.1 conn c1.2
        (portalRun a conn pre Proc.init).2).2.2).1 := by
    rw [portalRun_cons]
  have hs1 := sendNotificationThroughPortal_step a c1.1 conn c1.2 (portalRun a conn pre Proc.init).2
  have hs2 := sendNotificationThroughPortal_step a c2.1 conn c2.2
    (portalRun a conn (c1 :: mid) (portalRun a conn pre Proc.init).2).2
  simp only [successes, List.countP_append] at h hn1 hn2
  -- no wrap-around between the two calls
  have hlt : (portalRun a conn pre Proc.init).2.notificationID +
      List.countP (fun r => r.1.isNone)
        (portalRun a conn (c1 :: mid) (portalRun a conn pre Proc.init).2).1 < 2 ^ 64 := by
    have := Nat.mod_le (List.countP (fun r => r.1.isNone) (portalRun a conn pre Proc.init).1)
      (2 ^ 64)
    omega
  rw [Nat.mod_eq_of_lt hlt] at hn2
  refine ⟨hs1.2.2, hs2.2.2, ?_, ?_⟩
  · intro ok1 _ heq
    rw [hs1.2.2, hs2.2.2] at heq
    have hid := FormatUint_injective _ _ (List.singleton_inj.mp heq)
    have hpos : 0 < List.countP (fun r => r.1.isNone)
        (portalRun a conn (c1 :: mid) (portalRun a conn pre Proc.init).2).1 := by
      rw [hhead, List.countP_cons, ok1]
      simp
    omega
  · intro heq
    rw [hs1.2.2, hs2.2.2] at heq
    have hid := FormatUint_injective _ _ (List.singleton_inj.mp heq)
    have hzero : List.countP (fun r => r.1.isNone)
        (portalRun a conn (c1 :: mid) (portalRun a conn pre Proc.init).2).1 = 0 := by omega
    have hall : ∀ r ∈ (portalRun a conn (c1 :: mid) (portalRun a conn pre Proc.init).2).1,
        r.1 ≠ none := by
      intro r hr hnone
      have := (List.countP_eq_zero.mp hzero) r hr
      rw [hnone] at this
      simp at this
    refine ⟨hall, ?_⟩
    have hne : (portalRun a conn (c1 :: mid) (portalRun a conn pre Proc.init).2).1 ≠ [] := by
      rw [hhead]; exact List.cons_ne_nil _ _
    refine ⟨(portalRun a conn (c1 :: mid) (portalRun a conn pre Proc.init).2).1.getLast hne,
      ?_, hall _ (List.getLast_mem hne)⟩
    rw [List.getLast?_append_of_ne_nil _ hne, List.getLast?_eq_getLast _ hne]

/-- Two successful calls in a row, from process start, pass different IDs. -/
theorem portalRun_ids_distinct_example :
    passedIDs (sendNotificationThroughPortal ⟨"app", "app", none⟩
        (Env.mk0 (.ok ⟨0⟩) (.ok []) (.ok 0) none) ⟨0⟩ ⟨"t", "c"⟩
        (portalRun ⟨"app", "app", none⟩ ⟨0⟩ [] Proc.init).2).2.1 ≠
      passedIDs (sendNotificationThroughPortal ⟨"app", "app", none⟩
        (Env.mk0 (.ok ⟨0⟩) (.ok []) (.ok 0) none) ⟨0⟩ ⟨"t", "c"⟩
        (portalRun ⟨"app", "app", none⟩ ⟨0⟩
          ([] ++ (Env.mk0 (.ok ⟨0⟩) (.ok []) (.ok 0) none, ⟨"t", "c"⟩) :: [])
          Proc.init).2).2.1 :=
  (portalRun_ids_distinct ⟨"app", "app", none⟩ ⟨0⟩ []
    (Env.mk0 (.ok ⟨0⟩) (.ok []) (.ok 0) none, ⟨"t", "c"⟩) []
    (Env.mk0 (.ok ⟨0⟩) (.ok []) (.ok 0) none, ⟨"t", "c"⟩) []
    (by decide)).2.2.1 rfl rfl

/-! ### The cached icon -/

/-- One execution of `saveIconToCache` performs exactly one `os.MkdirAll`. -/
theorem saveIconToCache_saves (a : fyneApp) (env : Env) (dirPath filePath : String) :
    saves (saveIconToCache a env dirPath filePath).2 = 1 := by
  unfold saveIconToCache
  repeat' split
  all_goals simp [saves]

/-- The three cases of `cachedIconPath`: nil icon, used `once`, unused `once`. -/
theorem cachedIconPath_cases (a : fyneApp) (env : Env) (p : Proc) :
    (a.Icon = none → cachedIconPath a env p = ("", [], p)) ∧
    (a.Icon ≠ none → p.once = true →
      cachedIconPath a env p =
        (env.Join [env.Join [rootCacheDir env, a.UniqueID], "icon.png"], [], p)) ∧
    (a.Icon ≠ none → p.once = false →
      (cachedIconPath a env p).2.1 =
        (saveIconToCache a env (env.Join [rootCacheDir env, a.UniqueID])
          (env.Join [env.Join [rootCacheDir env, a.UniqueID], "icon.png"])).2 ∧
      (cachedIconPath a env p).2.2 = { p with once := true }) := by
  unfold cachedIconPath
  cases hi : a.Icon with
  | none => simp
  | some icon =>
    refine ⟨fun h => (by cases h), fun _ ho => (by simp [ho]), fun _ ho => ?_⟩
    simp only [ho]
    rcases saveIconToCache a env (env.Join [rootCacheDir env, a.UniqueID])
      (env.Join [env.Join [rootCacheDir env, a.UniqueID], "icon.png"]) with ⟨_ | e, evs⟩ <;>
    simp

/-- Number of `saveIconToCache` executions in one `cachedIconPath` call, and the
state of `once` after it. -/
theorem cachedIconPath_saves (a : fyneApp) (env : Env) (p : Proc) :
    saves (cachedIconPath a env p).2.1 = (if a.Icon.isSome && !p.once then 1 else 0) ∧
    (cachedIconPath a env p).2.2.once = (p.once || a.Icon.isSome) ∧
    (cachedIconPath a env p).2.2.notificationID = p.notificationID := by
  have h := cachedIconPath_cases a env p
  cases hi : a.Icon with
  | none =>
    rw [h.1 hi]
    simp [saves]
  | some icon =>
    have hne : a.Icon ≠ none := by rw [hi]; exact Option.some_ne_none _
    cases ho : p.once with
    | true =>
      rw [h.2.1 hne ho]
      simp [saves, ho]
    | false =>
      have h3 := h.2.2 hne ho
      rw [h3.1, h3.2, saveIconToCache_saves]
      simp

/-- Unfolding a run of `cachedIconPath` calls at its first call. -/
theorem iconRun_cons (c : fyneApp × Env) (cs : List (fyneApp × Env)) (p : Proc) :
    iconRun (c :: cs) p =
      (((cachedIconPath c.1 c.2 p).1, (cachedIconPath c.1 c.2 p).2.1) ::
        (iconRun cs (cachedIconPath c.1 c.2 p).2.2).1,
        (iconRun cs (cachedIconPath c.1 c.2 p).2.2).2) := rfl

/-- A run over `xs ++ ys` is the run over `xs` followed by the run over `ys`. -/
theorem iconRun_append (xs ys : List (fyneApp × Env)) :
    ∀ p, iconRun (xs ++ ys) p =
      ((iconRun xs p).1 ++ (iconRun ys (iconRun xs p).2).1, (iconRun ys (iconRun xs p).2).2) := by
  induction xs with
  | nil => intro p; rfl
  | cons c cs ih =>
    intro p
    rw [List.cons_append, iconRun_cons, iconRun_cons, ih]
    rfl

/-- After a run `once` is used exactly when it was used before or some call
was made with a non-nil icon. -/
theorem iconRun_once (cs : List (fyneApp × Env)) :
    ∀ p, (iconRun cs p).2.once = (p.once || cs.any fun c => c.1.Icon.isSome) := by
  induction cs with
  | nil => intro p; simp [iconRun]
  | cons c cs ih =>
    intro p
    rw [iconRun_cons]
    simp only [ih, (cachedIconPath_saves c.1 c.2 p).2.1, List.any_cons, Bool.or_assoc]

/-- A run executes `saveIconToCache` at most once, and never on a used `once`. -/
theorem iconRun_saves (cs : List (fyneApp × Env)) :
    ∀ p, ((iconRun cs p).1.map fun r => saves r.2).sum ≤ (if p.once then 0 else 1) := by
  induction cs with
  | nil => intro p; simp [iconRun]
  | cons c cs ih =>
    intro p
    rw [iconRun_cons]
    have h := cachedIconPath_saves c.1 c.2 p
    have ih2 := ih (cachedIconPath c.1 c.2 p).2.2
    rw [h.2.1] at ih2
    simp only [List.map_cons, List.sum_cons, h.1]
    cases ho : p.once <;> cases hi : c.1.Icon.isSome <;> simp [ho, hi] at ih2 ⊢ <;> omega

/-- C5: in every sequence of `cachedIconPath` calls from process start,
`saveIconToCache` is executed at most once; a call executes it exactly when the
icon is non-nil at that call and was nil at every earlier call; a call made
while the icon is nil returns the empty string, writes nothing and leaves the
variable `once` as it was. -/
theorem cachedIconPath_once (pre : List (fyneApp × Env)) (c : fyneApp × Env)
    (post : List (fyneApp × Env)) :
    (((iconRun (pre ++ c :: post) Proc.init).1.map fun r => saves r.2).sum ≤ 1) ∧
    (saves (cachedIconPath c.1 c.2 (iconRun pre Proc.init).2).2.1 =
      if c.1.Icon.isSome && pre.all (fun x => x.1.Icon.isNone) then 1 else 0) ∧
    (c.1.Icon ≠ none → (∀ x ∈ pre, x.1.Icon = none) →
      (cachedIconPath c.1 c.2 (iconRun pre Proc.init).2).2.1 =
        (saveIconToCache c.1 c.2 (c.2.Join [rootCacheDir c.2, c.1.UniqueID])
          (c.2.Join [c.2.Join [rootCacheDir c.2, c.1.UniqueID], "icon.png"])).2) ∧
    (c.1.Icon = none →
      cachedIconPath c.1 c.2 (iconRun pre Proc.init).2 = ("", [], (iconRun pre Proc.init).2)) := by
  have honce := iconRun_once pre Proc.init
  have hinit : Proc.init.once = false := rfl
  rw [hinit, Bool.false_or] at honce
  refine ⟨?_, ?_, ?_, ?_⟩
  · have := iconRun_saves (pre ++ c :: post) Proc.init
    rw [hinit] at this
    simpa using this
  · rw [(cachedIconPath_saves c.1 c.2 (iconRun pre Proc.init).2).1, honce]
    have : (!(pre.any fun c => c.1.Icon.isSome)) = pre.all (fun x => x.1.Icon.isNone) := by
      rw [List.not_any_eq_all_not]
      congr 1
      funext x
      cases x.1.Icon <;> rfl
    rw [this]
  · intro hne hall
    have hfalse : (iconRun pre Proc.init).2.once = false := by
      rw [honce, List.any_eq_false]
      intro x hx
      rw [hall x hx]
      simp
    exact ((cachedIconPath_cases c.1 c.2 (iconRun pre Proc.init).2).2.2 hne hfalse).1
  · intro hnil
    exact (cachedIconPath_cases c.1 c.2 (iconRun pre Proc.init).2).1 hnil

/-- Witness for C5: a call with a nil icon, before any other call. -/
theorem cachedIconPath_once_witness :
    cachedIconPath ⟨"app", "app", none⟩ (Env.mk0 (.ok ⟨0⟩) (.ok []) (.ok 0) none)
        (iconRun [] Proc.init).2 = ("", [], (iconRun [] Proc.init).2) :=
  (cachedIconPath_once [] (⟨"app", "app", none⟩, Env.mk0 (.ok ⟨0⟩) (.ok []) (.ok 0) none)
    []).2.2.2 rfl

/-! ### The theme listener -/

/-- A value compares equal to a string exactly when it is that string. -/
theorem Value.eqString_iff (v : Value) (t : String) :
    v.eqString t = true ↔ v = .str t := by
  cases v <;> simp [Value.eqString]

/-- One signal triggers the callback once if its body holds `"color-scheme"`,
and not at all otherwise. -/
theorem rangeBody_themeChanges (body : List Value) :
    themeChanges (rangeBody body) =
      if (body.any fun v => v.eqString "color-scheme") then 1 else 0 := by
  induction body with
  | nil => simp [rangeBody, themeChanges]
  | cons v vs ih =>
    unfold rangeBody
    cases hv : v.eqString "color-scheme" with
    | true => simp [themeChanged, themeChanges, hv]
    | false =>
      rw [List.any_cons, hv, Bool.false_or, ← ih]
      simp

/-- The listener loop triggers the callback once per signal that holds
`"color-scheme"`. -/
theorem rangeChan_themeChanges (sigs : List Signal) :
    themeChanges (rangeChan sigs) = sigs.countP hasColorScheme := by
  induction sigs with
  | nil => simp [rangeChan, themeChanges]
  | cons sig sigs ih =>
    have hb := rangeBody_themeChanges sig.Body
    unfold rangeChan
    unfold themeChanges at hb ih ⊢
    rw [List.countP_append, hb, ih, List.countP_cons]
    unfold hasColorScheme
    omega

/-- C6: once the listener is connected, for every finite sequence of signals
delivered to it the number of `themeChanged` invocations is the number of
signals whose body holds at least one element equal to the string
`"color-scheme"`; a signal with several such elements triggers the callback
once, a signal with none zero times. -/
theorem watchFreedekstopThemeChange_count (env : Env) (conn : Conn) (sigs : List Signal)
    (hb : env.SessionBus = .ok conn) (hm : env.AddMatchSignal = none) :
    themeChanges (watchFreedekstopThemeChange env sigs) = sigs.countP hasColorScheme ∧
    (∀ sig : Signal, (hasColorScheme sig = true ↔ Value.str "color-scheme" ∈ sig.Body) ∧
      themeChanges (rangeBody sig.Body) = if hasColorScheme sig then 1 else 0) := by
  constructor
  · have h := rangeChan_themeChanges sigs
    unfold watchFreedekstopThemeChange
    simp only [hb, hm]
    unfold themeChanges at h ⊢
    rw [List.countP_append, List.countP_cons, h]
    simp
  · intro sig
    refine ⟨?_, rangeBody_themeChanges sig.Body⟩
    unfold hasColorScheme
    rw [List.any_eq_true]
    constructor
    · rintro ⟨v, hv, he⟩
      rw [← (Value.eqString_iff v _).mp he]
      exact hv
    · intro h
      exact ⟨_, h, (Value.eqString_iff _ _).mpr rfl⟩

/-- Witness for C6: three signals, two of which hold `"color-scheme"`, one of
them twice. -/
theorem watchFreedekstopThemeChange_count_witness :
    themeChanges (watchFreedekstopThemeChange (Env.mk0 (.ok ⟨0⟩) (.ok []) (.ok 0) none)
      [⟨[.str "org.freedesktop.appearance", .str "color-scheme", .u32 1]⟩,
       ⟨[.str "org.gnome.desktop.interface", .str "gtk-theme", .str "Adwaita"]⟩,
       ⟨[.str "color-scheme", .str "color-scheme"]⟩]) = 2 :=
  (watchFreedekstopThemeChange_count (Env.mk0 (.ok ⟨0⟩) (.ok []) (.ok 0) none) ⟨0⟩
    [⟨[.str "org.freedesktop.appearance", .str "color-scheme", .u32 1]⟩,
     ⟨[.str "org.gnome.desktop.interface", .str "gtk-theme", .str "Adwaita"]⟩,
     ⟨[.str "color-scheme", .str "color-scheme"]⟩] rfl rfl).1

/-! ### Overlapping portal notifications -/

/-- A goroutine that takes both pieces with nothing in between does what
`sendNotificationThroughPortal` does: same result, same effects, same state. -/
theorem Goroutine.step_step (a : fyneApp) (env : Env) (conn : Conn) (n : Notification)
    (p : Proc) :
    (Goroutine.step a env n (Goroutine.step a env n .entry p).1
        (Goroutine.step a env n .entry p).2.2).1 =
      .returned (sendNotificationThroughPortal a env conn n p).1 ∧
    (Goroutine.step a env n .entry p).2.1 ++
      (Goroutine.step a env n (Goroutine.step a env n .entry p).1
        (Goroutine.step a env n .entry p).2.2).2.1 =
      (sendNotificationThroughPortal a env conn n p).2.1 ∧
    (Goroutine.step a env n (Goroutine.step a env n .entry p).1
        (Goroutine.step a env n .entry p).2.2).2.2 =
      (sendNotificationThroughPortal a env conn n p).2.2 := by
  have h := sendNotificationThroughPortal_eq a env conn n p
  unfold addNotificationReply at h
  simp only [Goroutine.step]
  cases hr : env.Call "org.freedesktop.portal.Desktop" "/org/freedesktop/portal/desktop"
      "org.freedesktop.portal.Notification.AddNotification" 0
      [.str (FormatUint p.notificationID 10),
        .dict [("title", .str n.Title), ("body", .str n.Content), ("icon", .str a.uniqueID)]] with
  | ok body => rw [h.1 body hr]; simp
  | error e => rw [h.2 e hr]; simp

/-- C7, failing input: at process start two goroutines call
`sendNotificationThroughPortal` and both read `notificationID` before either
reply arrives; the portal accepts both notifications.  Both calls return nil,
both passed the ID `"0"` to `AddNotification`, and the counter ends at 2: two
successful calls share an ID, and neither follows a failed call. -/
theorem overlapping_calls_share_id :
    (Overlap.run ⟨"app", "app", none⟩
      (Env.mk0 (.ok ⟨0⟩) (.ok []) (.ok 0) none, ⟨"first", "a"⟩)
      (Env.mk0 (.ok ⟨0⟩) (.ok []) (.ok 0) none, ⟨"second", "b"⟩)
      [false, true, false, true] Overlap.init).g1 = .returned none ∧
    (Overlap.run ⟨"app", "app", none⟩
      (Env.mk0 (.ok ⟨0⟩) (.ok []) (.ok 0) none, ⟨"first", "a"⟩)
      (Env.mk0 (.ok ⟨0⟩) (.ok []) (.ok 0) none, ⟨"second", "b"⟩)
      [false, true, false, true] Overlap.init).g2 = .returned none ∧
    passedIDs (Overlap.run ⟨"app", "app", none⟩
      (Env.mk0 (.ok ⟨0⟩) (.ok []) (.ok 0) none, ⟨"first", "a"⟩)
      (Env.mk0 (.ok ⟨0⟩) (.ok []) (.ok 0) none, ⟨"second", "b"⟩)
      [false, true, false, true] Overlap.init).evs1 = ["0"] ∧
    passedIDs (Overlap.run ⟨"app", "app", none⟩
      (Env.mk0 (.ok ⟨0⟩) (.ok []) (.ok 0) none, ⟨"first", "a"⟩)
      (Env.mk0 (.ok ⟨0⟩) (.ok []) (.ok 0) none, ⟨"second", "b"⟩)
      [false, true, false, true] Overlap.init).evs2 = ["0"] ∧
    (Overlap.run ⟨"app", "app", none⟩
      (Env.mk0 (.ok ⟨0⟩) (.ok []) (.ok 0) none, ⟨"first", "a"⟩)
      (Env.mk0 (.ok ⟨0⟩) (.ok []) (.ok 0) none, ⟨"second", "b"⟩)
      [false, true, false, true] Overlap.init).proc.notificationID = 2 := by
  refine ⟨rfl, rfl, ?_, ?_, rfl⟩
  · decide
  · decide

/-- The same two calls, the second starting after the first has returned: the
IDs passed are `"0"` and `"1"`. -/
theorem consecutive_calls_differ :
    passedIDs (Overlap.run ⟨"app", "app", none⟩
      (Env.mk0 (.ok ⟨0⟩) (.ok []) (.ok 0) none, ⟨"first", "a"⟩)
      (Env.mk0 (.ok ⟨0⟩) (.ok []) (.ok 0) none, ⟨"second", "b"⟩)
      [false, false, true, true] Overlap.init).evs1 = ["0"] ∧
    passedIDs (Overlap.run ⟨"app", "app", none⟩
      (Env.mk0 (.ok ⟨0⟩) (.ok []) (.ok 0) none, ⟨"first", "a"⟩)
      (Env.mk0 (.ok ⟨0⟩) (.ok []) (.ok 0) none, ⟨"second", "b"⟩)
      [false, false, true, true] Overlap.init).evs2 = ["1"] := by
  constructor
  · decide
  · decide

end XDG
